import Mathlib

/-!
Verification of `src/generatekey.py` (repository `cee-tv/Aug19`).

The program is a file-based key issuer/validator built around a single class
`KeyGenerator`:

* `__init__(keys_dir="keys")` runs `os.makedirs(keys_dir, exist_ok=True)`.
* `generate_key(duration, unit, custom_filename=None)` draws a random secret,
  looks the unit up in `unit_multiplier = {'days':1,'weeks':7,'months':30,'years':365}`
  (a `KeyError` for any other unit), computes
  `expiration = datetime.now() + timedelta(days=duration*multiplier)`, then a
  second `datetime.now()` for the `created` field, builds the record dict and
  writes it as JSON into `keys_dir` under either the caller's filename or
  `key_<timestamp>_<uuid8>.json`.
* `validate_key(key)` iterates `os.listdir(keys_dir)` (non-recursive), keeps
  names ending in `.json`, `json.load`s each, and on the first record whose
  `hash` equals `sha256(key)` returns `(True, record)` when
  `expires > datetime.now()` and `(False, "Key expired")` otherwise; after the
  loop returns `(False, "Invalid key")`; a `FileNotFoundError` (missing
  `keys_dir`) is caught and yields `(False, "No keys found")`.  No other
  exception is caught, so a file that fails to parse aborts the call.

Shallow embedding choices:

* Timestamps are seconds as `Int`; `timedelta(days=d)` is `d * 86400` seconds.
* SHA-256 is an opaque parameter `hash : String → String`: every claim below
  depends only on it being the same deterministic function at issuance and at
  validation, never on concrete digest values.
* The random secret, the two `datetime.now()` readings and the
  timestamp/uuid filename components are explicit parameters (the program
  reads them from the environment).
* A stored file's content is `Except Unit KeyData`: `.ok r` is a JSON file
  from which the scan can read well-typed `hash`/`expires` fields, `.error ()`
  is a file whose processing raises before the hash comparison
  (`json.JSONDecodeError`, a missing `hash` key, ...).
* The store root is `Option (List FsEntry)`: `none` is a missing directory
  (`os.listdir` raises `FileNotFoundError`); entries are the directory's
  immediate children, files or subdirectories, in `os.listdir` order.
* Python's `str.endswith` is character-level suffix testing, embedded as
  `endswith` over `String.data`.
-/

namespace GenerateKey

/-- The record dict built by `generate_key` / parsed back by `validate_key`
(JSON fields `key`, `created`, `expires`, `duration`, `unit`, `valid_days`,
`hash`). -/
structure KeyData where
  key : String
  created : Int
  expires : Int
  duration : Int
  unit : String
  valid_days : Int
  hash : String
deriving Repr, DecidableEq

/-- An immediate child of the store root: a regular file with its (parsed or
unparseable) content, or a subdirectory with its own children.  `os.listdir`
returns the names of both. -/
inductive FsEntry where
  | file (name : String) (content : Except Unit KeyData)
  | dir (name : String) (entries : List FsEntry)

/-- The observable result of `validate_key`:
`(True, record)`, `(False, "Key expired")`, `(False, "Invalid key")`,
`(False, "No keys found")`, or an uncaught exception. -/
inductive Outcome where
  | Valid (record : KeyData)
  | Expired
  | NotFound
  | StoreMissing
  | Error
deriving Repr, DecidableEq

/-- Python `s.endswith(suffix)`: character-level suffix test. -/
def endswith (s suffix : String) : Bool :=
  suffix.data.isSuffixOf s.data

/-- `t + timedelta(days=d)` in seconds. -/
def addDays (t d : Int) : Int :=
  t + d * 86400

/-- The `unit_multiplier` dict lookup in `generate_key`; an unrecognized unit
raises `KeyError`, embedded as `.error ()`. -/
def unit_multiplier (unit : String) : Except Unit Int :=
  if unit = "days" then .ok 1
  else if unit = "weeks" then .ok 7
  else if unit = "months" then .ok 30
  else if unit = "years" then .ok 365
  else .error ()

/-- `KeyGenerator.generate_key(duration, unit, custom_filename)`.

`secret` is the encoded `secrets.token_bytes(32)` draw; `nowExp` is the
`datetime.now()` used for `expiration`, `nowCreated` the second
`datetime.now()` stored in `created`; `ts`/`uid` are the
`strftime`/`uuid4`-derived filename components.  Returns the record dict and
the filename it is stored under, or the uncaught `KeyError` of an
unrecognized unit (raised by the dict lookup before any date arithmetic).

Caveat: timestamps here are unbounded `Int`, so this embedding does not model
the uncaught `OverflowError` that Python's `timedelta`/`datetime` arithmetic
raises when `duration * multiplier` days exceeds the `timedelta`/`datetime`
range (for example `duration=8000, unit='years'`).  Theorems about issuance
failure are therefore stated only for inputs where that arithmetic cannot
overflow (such as `duration = 0`, or an unrecognized unit, whose `KeyError`
precedes the arithmetic); success-conditional theorems (hypothesis
`generate_key ... = .ok ...`) are unaffected. -/
def generate_key (hash : String → String) (secret : String)
    (nowExp nowCreated : Int) (ts uid : String)
    (duration : Int) (unit : String) (custom_filename : Option String) :
    Except Unit (KeyData × String) :=
  match unit_multiplier unit with
  | .error e => .error e
  | .ok m =>
    let days := duration * m
    let expiration := addDays nowExp days
    let key_data : KeyData :=
      { key := secret
        created := nowCreated
        expires := expiration
        duration := duration
        unit := unit
        valid_days := days
        hash := hash secret }
    let filename :=
      match custom_filename with
      | none => "key_" ++ ts ++ "_" ++ uid ++ ".json"
      | some f => if f = "" then "key_" ++ ts ++ "_" ++ uid ++ ".json" else f
    .ok (key_data, filename)

/-- The effect of `_store_key` on the root directory: `open(path, 'w')`
truncates an existing file of the same name or creates a new one. -/
def store_key : List FsEntry → String → KeyData → List FsEntry
  | [], filename, kd => [.file filename (.ok kd)]
  | .file n c :: rest, filename, kd =>
      if n = filename then .file n (.ok kd) :: rest
      else .file n c :: store_key rest filename kd
  | .dir n es :: rest, filename, kd => .dir n es :: store_key rest filename kd

/-- The `for filename in os.listdir(...)` loop of `validate_key`, with the
presented key's digest `kh` precomputed (the loop recomputes the same value
each iteration).  A name ending in `.json` that is a subdirectory raises
`IsADirectoryError` at `open`; a file whose processing raises propagates the
exception; otherwise the first record with a matching `hash` decides the
result by the strict comparison `expires > now`. -/
def keyScan (kh : String) (now : Int) : List FsEntry → Outcome
  | [] => .NotFound
  | .dir name _ :: rest =>
      if endswith name (".json") then .Error
      else keyScan kh now rest
  | .file name content :: rest =>
      if endswith name (".json") then
        match content with
        | .error _ => .Error
        | .ok key_data =>
            if key_data.hash = kh then
              if key_data.expires > now then .Valid key_data else .Expired
            else keyScan kh now rest
      else keyScan kh now rest

/-- `KeyGenerator.validate_key(key)` at time `now` over store root `store`
(`none` = the directory does not exist). -/
def validate_key (hash : String → String) (now : Int)
    (store : Option (List FsEntry)) (key : String) : Outcome :=
  match store with
  | none => .StoreMissing
  | some entries => keyScan (hash key) now entries

/-- `KeyGenerator.__init__`: `os.makedirs(keys_dir, exist_ok=True)` — a
missing root directory is created (empty) at construction time; an existing
one is left untouched. -/
def KeyGenerator_init (store : Option (List FsEntry)) : Option (List FsEntry) :=
  match store with
  | none => some []
  | some es => some es

/-! ### Concrete records used by closed counterexamples and witnesses -/

/-- Record issued for secret `c1secret` at time 7 for 1 day. -/
def kdC1 : KeyData :=
  { key := "c1secret"
    created := 7
    expires := 86407
    duration := 1
    unit := "days"
    valid_days := 1
    hash := "c1secret" }

/-- Well-formed, unexpired record for secret `c2secret` at time 0. -/
def kdC2 : KeyData :=
  { key := "c2secret"
    created := 0
    expires := 86400
    duration := 1
    unit := "days"
    valid_days := 1
    hash := "c2secret" }

/-- Well-formed, unexpired record for secret `c3secret` at time 0. -/
def kdC3 : KeyData :=
  { key := "c3secret"
    created := 0
    expires := 86400
    duration := 1
    unit := "days"
    valid_days := 1
    hash := "c3secret" }

/-- Record produced when the two `now()` readings differ (first 0, second 1). -/
def kdC5 : KeyData :=
  { key := "c5secret"
    created := 1
    expires := 86400
    duration := 1
    unit := "days"
    valid_days := 1
    hash := "c5secret" }

/-- Record produced when both `now()` readings are 3. -/
def kdC5w : KeyData :=
  { key := "c5wsecret"
    created := 3
    expires := 86403
    duration := 1
    unit := "days"
    valid_days := 1
    hash := "c5wsecret" }

/-- Record whose `expires` is exactly the validation time 500. -/
def kdC6 : KeyData :=
  { key := "c6secret"
    created := 0
    expires := 500
    duration := 1
    unit := "days"
    valid_days := 1
    hash := "c6secret" }

/-- Expired record for secret `c8secret` at validation time 500. -/
def kdC8a : KeyData :=
  { key := "c8secret"
    created := 0
    expires := 100
    duration := 1
    unit := "days"
    valid_days := 1
    hash := "c8secret" }

/-- Unexpired record with the same hash as `kdC8a`. -/
def kdC8b : KeyData :=
  { key := "c8secret"
    created := 200
    expires := 999999
    duration := 1
    unit := "days"
    valid_days := 1
    hash := "c8secret" }

/-- Record issued under the custom filename `mykey.txt`. -/
def kdC10 : KeyData :=
  { key := "c10secret"
    created := 0
    expires := 86400
    duration := 1
    unit := "days"
    valid_days := 1
    hash := "c10secret" }

/-! ### Helper lemmas about the directory scan -/

/-- Appending `.json` to any string yields a name the scan's filter accepts. -/
theorem endswith_append (x : String) :
    endswith (x ++ ".json") (".json") = true := by
  rw [endswith, List.isSuffixOf_iff_suffix, String.data_append]
  exact List.suffix_append _ _

/-- A scan that exhausts a prefix without deciding continues into the rest of
the listing. -/
theorem keyScan_append {kh : String} {t : Int} {pre : List FsEntry}
    (rest : List FsEntry) (h : keyScan kh t pre = Outcome.NotFound) :
    keyScan kh t (pre ++ rest) = keyScan kh t rest := by
  induction pre with
  | nil => simp
  | cons e pre ih =>
    cases e with
    | dir name es =>
      rw [List.cons_append]
      simp only [keyScan] at h ⊢
      split at h
      · simp at h
      · next hn => rw [if_neg hn]; exact ih h
    | file name c =>
      rw [List.cons_append]
      simp only [keyScan] at h ⊢
      split at h
      · next hj =>
        rw [if_pos hj]
        cases c with
        | error e => simp at h
        | ok kd =>
          simp only at h ⊢
          split at h
          · split at h <;> simp at h
          · next hh => rw [if_neg hh]; exact ih h
      · next hj => rw [if_neg hj]; exact ih h

/-- A matching, unexpired record at the head of the listing is returned. -/
theorem keyScan_found_valid {kh : String} {t : Int} {fn : String} {r : KeyData}
    (post : List FsEntry) (hfn : endswith fn (".json") = true)
    (hh : r.hash = kh) (he : r.expires > t) :
    keyScan kh t (FsEntry.file fn (.ok r) :: post) = Outcome.Valid r := by
  simp only [keyScan, if_pos hfn]
  rw [if_pos hh, if_pos he]

/-- A matching record at the head of the listing whose expiry is not strictly
in the future yields `Expired`. -/
theorem keyScan_found_expired {kh : String} {t : Int} {fn : String} {r : KeyData}
    (post : List FsEntry) (hfn : endswith fn (".json") = true)
    (hh : r.hash = kh) (he : ¬r.expires > t) :
    keyScan kh t (FsEntry.file fn (.ok r) :: post) = Outcome.Expired := by
  simp only [keyScan, if_pos hfn]
  rw [if_pos hh, if_neg he]

/-- A `.json` file that fails to parse aborts the scan with an uncaught
exception. -/
theorem keyScan_bad_file {kh : String} {t : Int} {fn : String}
    (post : List FsEntry) (hfn : endswith fn (".json") = true) :
    keyScan kh t (FsEntry.file fn (.error ()) :: post) = Outcome.Error := by
  simp only [keyScan, if_pos hfn]

/-- A file whose name does not end in `.json` is invisible to the scan. -/
theorem keyScan_skip_non_json {fn : String} (hfn : endswith fn (".json") = false)
    (kh : String) (t : Int) (c : Except Unit KeyData)
    (pre post : List FsEntry) :
    keyScan kh t (pre ++ FsEntry.file fn c :: post) = keyScan kh t (pre ++ post) := by
  induction pre with
  | nil =>
    simp only [List.nil_append, keyScan]
    rw [if_neg (by simp [hfn])]
  | cons e pre ih =>
    cases e with
    | dir name es =>
      simp only [List.cons_append, keyScan]
      split
      · rfl
      · exact ih
    | file name cc =>
      simp only [List.cons_append, keyScan]
      split
      · cases cc with
        | error e => rfl
        | ok kd =>
          simp only
          split
          · rfl
          · exact ih
      · exact ih

/-- The scan never opens a subdirectory: replacing the entire contents of a
subdirectory cannot change the outcome. -/
theorem keyScan_dir_contents_irrelevant (kh : String) (t : Int) (dname : String)
    (sub1 sub2 : List FsEntry) (pre post : List FsEntry) :
    keyScan kh t (pre ++ FsEntry.dir dname sub1 :: post) =
      keyScan kh t (pre ++ FsEntry.dir dname sub2 :: post) := by
  induction pre with
  | nil =>
    simp only [List.nil_append, keyScan]
  | cons e pre ih =>
    cases e with
    | dir name es =>
      simp only [List.cons_append, keyScan]
      split
      · rfl
      · exact ih
    | file name cc =>
      simp only [List.cons_append, keyScan]
      split
      · cases cc with
        | error e => rfl
        | ok kd =>
          simp only
          split
          · rfl
          · exact ih
      · exact ih

/-- Writing a fresh, matching, unexpired record into a listing the scan would
otherwise exhaust makes the scan return exactly that record. -/
theorem keyScan_store_key {kh : String} {t : Int} {fn : String} {kd : KeyData}
    (hfn : endswith fn (".json") = true) (hh : kd.hash = kh) (he : kd.expires > t)
    (pre : List FsEntry) (h : keyScan kh t pre = Outcome.NotFound) :
    keyScan kh t (store_key pre fn kd) = Outcome.Valid kd := by
  induction pre with
  | nil => exact keyScan_found_valid [] hfn hh he
  | cons e pre ih =>
    cases e with
    | dir name es =>
      simp only [keyScan] at h
      split at h
      · simp at h
      · next hn =>
        simp only [store_key, keyScan]
        rw [if_neg hn]
        exact ih h
    | file name c =>
      simp only [store_key]
      by_cases hname : name = fn
      · subst hname
        rw [if_pos rfl]
        exact keyScan_found_valid pre hfn hh he
      · rw [if_neg hname]
        simp only [keyScan] at h ⊢
        split at h
        · next hj =>
          rw [if_pos hj]
          cases c with
          | error e => simp at h
          | ok r =>
            simp only at h ⊢
            split at h
            · split at h <;> simp at h
            · next hr => rw [if_neg hr]; exact ih h
        · next hj => rw [if_neg hj]; exact ih h

/-- The unit lookup raises `KeyError` exactly on the strings outside the
four-entry dict. -/
theorem unit_multiplier_error_iff (unit : String) :
    unit_multiplier unit = Except.error () ↔
      ¬(unit = "days" ∨ unit = "weeks" ∨ unit = "months" ∨ unit = "years") := by
  unfold unit_multiplier
  split_ifs with h1 h2 h3 h4 <;> simp_all

/-- Inversion of a successful issuance: the returned record's fields, and the
returned filename when no custom name was supplied. -/
theorem generate_key_ok_elim {hash : String → String} {secret : String}
    {n1 n2 : Int} {ts uid : String} {duration : Int} {unit : String}
    {cf : Option String} {kd : KeyData} {fn : String}
    (hgen : generate_key hash secret n1 n2 ts uid duration unit cf =
      Except.ok (kd, fn)) :
    ∃ m, unit_multiplier unit = Except.ok m ∧
      kd = { key := secret, created := n2, expires := addDays n1 (duration * m),
             duration := duration, unit := unit, valid_days := duration * m,
             hash := hash secret } ∧
      (cf = none → fn = "key_" ++ ts ++ "_" ++ uid ++ ".json") := by
  unfold generate_key at hgen
  cases hm : unit_multiplier unit with
  | error e => rw [hm] at hgen; simp at hgen
  | ok m =>
    rw [hm] at hgen
    simp only [Except.ok.injEq, Prod.mk.injEq] at hgen
    obtain ⟨hkd, hfn⟩ := hgen
    refine ⟨m, rfl, hkd.symm, ?_⟩
    intro hcf
    subst hcf
    exact hfn.symm

/-- Every value in the `unit_multiplier` dict is positive. -/
theorem unit_multiplier_pos {unit : String} {m : Int}
    (hm : unit_multiplier unit = Except.ok m) : 0 < m := by
  unfold unit_multiplier at hm
  split_ifs at hm <;> injection hm with h <;> omega

/-! ### Claims -/

/-- C1: for every positive integer amount and unit among `days`, `weeks`,
`months`, `years`, issuing a key (`generate_key`) and immediately validating
the returned plaintext secret (`validate_key`) yields `Valid` with the issued
record, whose `valid_days` field equals the amount multiplied by the unit's
day multiplier (days 1, weeks 7, months 30, years 365).  `pre` is the prior
content of the store, which the scan would otherwise exhaust without
deciding; both `now()` readings and the validation time coincide
("immediately"). -/
theorem C1_round_trip (hash : String → String) (secret : String) (now : Int)
    (ts uid : String) (duration : Int) (unit : String) (pre : List FsEntry)
    (kd : KeyData) (fn : String)
    (hdur : 0 < duration)
    (hunit : unit = "days" ∨ unit = "weeks" ∨ unit = "months" ∨ unit = "years")
    (hgen : generate_key hash secret now now ts uid duration unit none =
      Except.ok (kd, fn))
    (hpre : keyScan (hash secret) now pre = Outcome.NotFound) :
    validate_key hash now (some (store_key pre fn kd)) secret = Outcome.Valid kd ∧
      ∃ m, unit_multiplier unit = Except.ok m ∧ kd.valid_days = duration * m := by
  obtain ⟨m, hm, hkd, hfn⟩ := generate_key_ok_elim hgen
  have hfnj : endswith fn (".json") = true := by
    rw [hfn rfl]
    exact endswith_append ("key_" ++ ts ++ "_" ++ uid)
  have hmpos : 0 < m := unit_multiplier_pos hm
  have he : kd.expires > now := by
    rw [hkd]
    show addDays now (duration * m) > now
    unfold addDays
    have h1 : 0 < duration * m * 86400 := by positivity
    omega
  have hh : kd.hash = hash secret := by rw [hkd]
  constructor
  · show keyScan (hash secret) now (store_key pre fn kd) = Outcome.Valid kd
    exact keyScan_store_key hfnj hh he pre hpre
  · exact ⟨m, hm, by rw [hkd]⟩

/-- Witness for C1 at a concrete issuance: secret `c1secret`, 1 day, issued
and validated at time 7 over an empty store. -/
theorem C1_round_trip_witness :
    (0:Int) < 1 ∧
    ("days" = "days" ∨ "days" = "weeks" ∨ "days" = "months" ∨ "days" = "years") ∧
    generate_key (fun s => s) "c1secret" 7 7 "20260101_000000" "abcd1234" 1 "days" none =
      Except.ok (kdC1, "key_20260101_000000_abcd1234.json") ∧
    keyScan ((fun s => s) "c1secret") 7 [] = Outcome.NotFound ∧
    (validate_key (fun s => s) 7
        (some (store_key [] "key_20260101_000000_abcd1234.json" kdC1)) "c1secret"
        = Outcome.Valid kdC1 ∧
      ∃ m, unit_multiplier "days" = Except.ok m ∧ kdC1.valid_days = 1 * m) :=
  ⟨by decide, Or.inl rfl, by rfl, rfl,
    C1_round_trip (fun s => s) "c1secret" 7 "20260101_000000" "abcd1234" 1 "days" []
      kdC1 "key_20260101_000000_abcd1234.json"
      (by decide) (Or.inl rfl) (by rfl) rfl⟩

/-- C2 counterexample: the well-formed record `good.json` validates on its
own, but adding the unparseable file `corrupt.json` in front of it makes the
same validation abort with an uncaught exception instead of skipping the bad
file — the `try` in `validate_key` catches only `FileNotFoundError`. -/
theorem C2_counterexample :
    validate_key (fun s => s) 0
        (some [FsEntry.file "good.json" (Except.ok kdC2)]) "c2secret"
      = Outcome.Valid kdC2 ∧
    validate_key (fun s => s) 0
        (some [FsEntry.file "corrupt.json" (Except.error ()),
          FsEntry.file "good.json" (Except.ok kdC2)]) "c2secret"
      = Outcome.Error :=
  ⟨rfl, rfl⟩

/-- C2 (amended): a `.json` file whose parsing raises is not skipped — the
exception propagates and aborts the whole validation, whatever well-formed
records follow it. -/
theorem C2_parse_failure_aborts (hash : String → String) (now : Int) (key : String)
    (pre post : List FsEntry) (bad : String)
    (hpre : keyScan (hash key) now pre = Outcome.NotFound)
    (hbad : endswith bad (".json") = true) :
    validate_key hash now
        (some (pre ++ FsEntry.file bad (Except.error ()) :: post)) key
      = Outcome.Error := by
  show keyScan (hash key) now _ = _
  rw [keyScan_append _ hpre]
  exact keyScan_bad_file post hbad

/-- Witness for the amended C2 at a store holding a single unparseable file. -/
theorem C2_parse_failure_aborts_witness :
    keyScan ((fun s => s) "anykey") 0 [] = Outcome.NotFound ∧
    endswith "corrupt2.json" (".json") = true ∧
    validate_key (fun s => s) 0
        (some ([] ++ FsEntry.file "corrupt2.json" (Except.error ()) :: [])) "anykey"
      = Outcome.Error :=
  ⟨rfl, by decide,
    C2_parse_failure_aborts (fun s => s) 0 "anykey" [] [] "corrupt2.json" rfl (by decide)⟩

/-- C3 counterexample: a matching, unexpired record stored inside the
date-named subdirectory `2024-01-01` is not found (`NotFound`), although the
same record placed directly in the root validates — `os.listdir` does not
recurse. -/
theorem C3_counterexample :
    validate_key (fun s => s) 0
        (some [FsEntry.dir "2024-01-01" [FsEntry.file "rec.json" (Except.ok kdC3)]])
        "c3secret"
      = Outcome.NotFound ∧
    validate_key (fun s => s) 0
        (some [FsEntry.file "rec.json" (Except.ok kdC3)]) "c3secret"
      = Outcome.Valid kdC3 :=
  ⟨rfl, rfl⟩

/-- C3 (amended): validation enumerates only the immediate children of the
store root; the entire contents of any subdirectory can be replaced without
changing the outcome, so records persisted in subdirectories are never
matched. -/
theorem C3_subdirectory_contents_ignored (hash : String → String) (now : Int)
    (key : String) (pre post : List FsEntry) (dname : String)
    (sub1 sub2 : List FsEntry) :
    validate_key hash now (some (pre ++ FsEntry.dir dname sub1 :: post)) key =
      validate_key hash now (some (pre ++ FsEntry.dir dname sub2 :: post)) key :=
  keyScan_dir_contents_irrelevant (hash key) now dname sub1 sub2 pre post

/-- C4 counterexample: `generate_key` with the non-positive amount 0 and the
recognized unit `days` succeeds (returns a record with `valid_days = 0`)
instead of failing with any error. -/
theorem C4_counterexample :
    generate_key (fun s => s) "c4secret" 0 0 "ts" "uid" 0 "days" none =
      Except.ok ({ key := "c4secret"
                   created := 0
                   expires := 0
                   duration := 0
                   unit := "days"
                   valid_days := 0
                   hash := "c4secret" }, "key_ts_uid.json") :=
  rfl

/-- C4 (amended): `generate_key` performs no check that the amount is
positive: a call with amount 0 and a recognized unit succeeds with a record
whose `duration` and `valid_days` are 0, rather than failing with
`InvalidArgument`; an unrecognized unit fails with the `KeyError` raised by
the `unit_multiplier` dict lookup — which happens before any date
arithmetic, hence for every amount — not with a distinct `InvalidArgument`
validation error. -/
theorem C4_no_amount_validation (hash : String → String) (secret : String)
    (n1 n2 : Int) (ts uid : String) (duration : Int) (unit bad_unit : String)
    (cf : Option String)
    (hunit : unit = "days" ∨ unit = "weeks" ∨ unit = "months" ∨ unit = "years")
    (hbad : ¬(bad_unit = "days" ∨ bad_unit = "weeks" ∨ bad_unit = "months" ∨
      bad_unit = "years")) :
    (∃ kd fn, generate_key hash secret n1 n2 ts uid 0 unit cf = Except.ok (kd, fn) ∧
        kd.duration = 0 ∧ kd.valid_days = 0) ∧
      generate_key hash secret n1 n2 ts uid duration bad_unit cf =
        Except.error () := by
  constructor
  · obtain ⟨m, hm⟩ : ∃ m, unit_multiplier unit = Except.ok m := by
      rcases hunit with h | h | h | h <;> subst h <;> exact ⟨_, rfl⟩
    have hg : generate_key hash secret n1 n2 ts uid 0 unit cf =
        Except.ok ({ key := secret, created := n2, expires := addDays n1 (0 * m),
                     duration := 0, unit := unit, valid_days := 0 * m,
                     hash := hash secret },
          match cf with
          | none => "key_" ++ ts ++ "_" ++ uid ++ ".json"
          | some f =>
              if f = "" then "key_" ++ ts ++ "_" ++ uid ++ ".json" else f) := by
      unfold generate_key
      rw [hm]
    exact ⟨_, _, hg, rfl, zero_mul m⟩
  · unfold generate_key
    rw [(unit_multiplier_error_iff bad_unit).mpr hbad]

/-- Witness for the amended C4: amount 0 with unit `days` succeeds with
`valid_days = 0`, while the unrecognized unit `fortnights` fails with the
lookup error for any amount. -/
theorem C4_no_amount_validation_witness :
    ("days" = "days" ∨ "days" = "weeks" ∨ "days" = "months" ∨ "days" = "years") ∧
    ¬("fortnights" = "days" ∨ "fortnights" = "weeks" ∨ "fortnights" = "months" ∨
      "fortnights" = "years") ∧
    ((∃ kd fn, generate_key (fun s => s) "c4wsecret" 0 0 "ts" "uid" 0 "days" none =
        Except.ok (kd, fn) ∧ kd.duration = 0 ∧ kd.valid_days = 0) ∧
      generate_key (fun s => s) "c4wsecret" 0 0 "ts" "uid" 5 "fortnights" none =
        Except.error ()) :=
  ⟨Or.inl rfl, by decide,
    C4_no_amount_validation (fun s => s) "c4wsecret" 0 0 "ts" "uid" 5 "days"
      "fortnights" none (Or.inl rfl) (by decide)⟩

/-- C5 counterexample: with the first `now()` reading 0 and the second 1 (the
clock advanced between the two calls in `generate_key`), the issued record
has `expires = 86400` but `created + valid_days` days `= 86401`, so the two
persisted fields drift. -/
theorem C5_counterexample :
    generate_key (fun s => s) "c5secret" 0 1 "ts" "uid" 1 "days" none =
      Except.ok (kdC5, "key_ts_uid.json") ∧
    kdC5.expires ≠ addDays kdC5.created kdC5.valid_days :=
  ⟨rfl, by decide⟩

/-- C5 (amended): `expires` equals the first `now()` reading plus
`valid_days` days, while `created` is a second, separate reading; the
invariant `expires = created + valid_days` days therefore holds exactly when
the two readings coincide. -/
theorem C5_expires_from_first_now (hash : String → String) (secret : String)
    (n1 n2 : Int) (ts uid : String) (duration : Int) (unit : String)
    (cf : Option String) (kd : KeyData) (fn : String)
    (hgen : generate_key hash secret n1 n2 ts uid duration unit cf =
      Except.ok (kd, fn)) :
    kd.created = n2 ∧ kd.expires = addDays n1 kd.valid_days ∧
      (n1 = n2 → kd.expires = addDays kd.created kd.valid_days) := by
  obtain ⟨m, hm, hkd, -⟩ := generate_key_ok_elim hgen
  subst hkd
  exact ⟨rfl, rfl, fun h => by rw [← h]⟩

/-- Witness for the amended C5 at an issuance whose two readings are both 3. -/
theorem C5_expires_from_first_now_witness :
    generate_key (fun s => s) "c5wsecret" 3 3 "ts" "uid" 1 "days" none =
      Except.ok (kdC5w, "key_ts_uid.json") ∧
    (kdC5w.created = 3 ∧ kdC5w.expires = addDays 3 kdC5w.valid_days ∧
      ((3:Int) = 3 → kdC5w.expires = addDays kdC5w.created kdC5w.valid_days)) :=
  ⟨by rfl,
    C5_expires_from_first_now (fun s => s) "c5wsecret" 3 3 "ts" "uid" 1 "days" none
      kdC5w "key_ts_uid.json" (by rfl)⟩

/-- C6: the first matching record decides the outcome by the strict
comparison `expires > now`: whenever `expires ≤ now` — in particular when
`expires` equals the current time exactly — validation returns `Expired`,
never `Valid`. -/
theorem C6_expiry_strict (hash : String → String) (now : Int) (key : String)
    (pre post : List FsEntry) (fn : String) (r : KeyData)
    (hpre : keyScan (hash key) now pre = Outcome.NotFound)
    (hfn : endswith fn (".json") = true)
    (hh : r.hash = hash key)
    (hexp : r.expires ≤ now) :
    validate_key hash now (some (pre ++ FsEntry.file fn (Except.ok r) :: post)) key
      = Outcome.Expired := by
  show keyScan (hash key) now _ = _
  rw [keyScan_append _ hpre]
  exact keyScan_found_expired post hfn hh (by omega)

/-- Witness for C6 at the boundary: the record expires exactly at the
validation time 500 and is reported `Expired`. -/
theorem C6_expiry_strict_witness :
    keyScan ((fun s => s) "c6secret") 500 [] = Outcome.NotFound ∧
    endswith "boundary.json" (".json") = true ∧
    kdC6.hash = (fun s => s) "c6secret" ∧
    kdC6.expires ≤ 500 ∧
    validate_key (fun s => s) 500
        (some ([] ++ FsEntry.file "boundary.json" (Except.ok kdC6) :: [])) "c6secret"
      = Outcome.Expired :=
  ⟨rfl, by decide, rfl, by decide,
    C6_expiry_strict (fun s => s) 500 "c6secret" [] [] "boundary.json" kdC6
      rfl (by decide) rfl (by decide)⟩

/-- C7: validating against a missing store root returns `StoreMissing`
(`(False, "No keys found")`), a distinct outcome from the `NotFound`
(`(False, "Invalid key")`) returned when the root exists but no record's
hash matches. -/
theorem C7_store_missing_distinct (hash : String → String) (now : Int)
    (key : String) (entries : List FsEntry)
    (hnm : keyScan (hash key) now entries = Outcome.NotFound) :
    validate_key hash now none key = Outcome.StoreMissing ∧
      validate_key hash now (some entries) key = Outcome.NotFound ∧
      Outcome.StoreMissing ≠ Outcome.NotFound :=
  ⟨rfl, hnm, by decide⟩

/-- Witness for C7 at a missing root versus an existing empty root. -/
theorem C7_store_missing_distinct_witness :
    keyScan ((fun s => s) "c7secret") 0 [] = Outcome.NotFound ∧
    (validate_key (fun s => s) 0 none "c7secret" = Outcome.StoreMissing ∧
      validate_key (fun s => s) 0 (some []) "c7secret" = Outcome.NotFound ∧
      Outcome.StoreMissing ≠ Outcome.NotFound) :=
  ⟨rfl, C7_store_missing_distinct (fun s => s) 0 "c7secret" [] rfl⟩

/-- C8: the scan stops at the first record whose stored hash matches the
presented secret: when that record is expired the result is `Expired`, even
though a later record with the same hash is unexpired and would validate. -/
theorem C8_first_match_stops (hash : String → String) (now : Int) (key : String)
    (pre mid post : List FsEntry) (fn fn2 : String) (r r2 : KeyData)
    (hpre : keyScan (hash key) now pre = Outcome.NotFound)
    (hfn : endswith fn (".json") = true)
    (hh : r.hash = hash key)
    (hexp : r.expires ≤ now)
    (hfn2 : endswith fn2 (".json") = true)
    (hh2 : r2.hash = hash key)
    (hexp2 : now < r2.expires) :
    validate_key hash now
        (some (pre ++ FsEntry.file fn (Except.ok r) ::
          (mid ++ FsEntry.file fn2 (Except.ok r2) :: post))) key
      = Outcome.Expired := by
  show keyScan (hash key) now _ = _
  rw [keyScan_append _ hpre]
  exact keyScan_found_expired _ hfn hh (by omega)

/-- Witness for C8: an expired record followed by an unexpired record with
the same hash still yields `Expired`. -/
theorem C8_first_match_stops_witness :
    keyScan ((fun s => s) "c8secret") 500 [] = Outcome.NotFound ∧
    endswith "old.json" (".json") = true ∧
    kdC8a.hash = (fun s => s) "c8secret" ∧
    kdC8a.expires ≤ 500 ∧
    endswith "fresh.json" (".json") = true ∧
    kdC8b.hash = (fun s => s) "c8secret" ∧
    (500:Int) < kdC8b.expires ∧
    validate_key (fun s => s) 500
        (some ([] ++ FsEntry.file "old.json" (Except.ok kdC8a) ::
          ([] ++ FsEntry.file "fresh.json" (Except.ok kdC8b) :: []))) "c8secret"
      = Outcome.Expired :=
  ⟨rfl, by decide, rfl, by decide, by decide, rfl, by decide,
    C8_first_match_stops (fun s => s) 500 "c8secret" [] [] [] "old.json" "fresh.json"
      kdC8a kdC8b rfl (by decide) rfl (by decide) (by decide) rfl (by decide)⟩

/-- C9 counterexample: constructing `KeyGenerator` over a missing root
creates the directory immediately (`os.makedirs` in `__init__`), before any
issuance — the store is no longer absent right after construction. -/
theorem C9_counterexample :
    KeyGenerator_init none = some ([] : List FsEntry) ∧
      KeyGenerator_init none ≠ none :=
  ⟨rfl, by simp [KeyGenerator_init]⟩

/-- C9 (amended): the backing directory is created eagerly and idempotently
by the constructor (`exist_ok=True`): a missing root becomes an empty
directory, an existing root and its contents are left untouched, and
re-running the constructor changes nothing. -/
theorem C9_init_eager_idempotent (es : List FsEntry) :
    KeyGenerator_init none = some ([] : List FsEntry) ∧
      KeyGenerator_init (some es) = some es ∧
      KeyGenerator_init (KeyGenerator_init none) = KeyGenerator_init none :=
  ⟨rfl, rfl, rfl⟩

/-- C10: validation only considers filenames ending in `.json`: a record
issued under a custom filename without that ending is persisted but is
invisible to the scan, so validating its secret returns `NotFound` when
nothing else in the store matches. -/
theorem C10_json_filter (hash : String → String) (secret : String)
    (n1 n2 now : Int) (ts uid : String) (fnc : String) (duration : Int)
    (unit : String) (kd : KeyData) (fn : String) (pre post : List FsEntry)
    (hgen : generate_key hash secret n1 n2 ts uid duration unit (some fnc) =
      Except.ok (kd, fn))
    (hfn : endswith fn (".json") = false)
    (hrest : keyScan (hash secret) now (pre ++ post) = Outcome.NotFound) :
    validate_key hash now
        (some (pre ++ FsEntry.file fn (Except.ok kd) :: post)) secret
      = Outcome.NotFound := by
  show keyScan (hash secret) now _ = _
  rw [keyScan_skip_non_json hfn]
  exact hrest

/-- Witness for C10: a key issued under the custom filename `mykey.txt` is
persisted yet its secret no longer validates. -/
theorem C10_json_filter_witness :
    generate_key (fun s => s) "c10secret" 0 0 "ts" "uid" 1 "days" (some "mykey.txt") =
      Except.ok (kdC10, "mykey.txt") ∧
    endswith "mykey.txt" (".json") = false ∧
    keyScan ((fun s => s) "c10secret") 0 ([] ++ []) = Outcome.NotFound ∧
    validate_key (fun s => s) 0
        (some ([] ++ FsEntry.file "mykey.txt" (Except.ok kdC10) :: [])) "c10secret"
      = Outcome.NotFound :=
  ⟨by rfl, by decide, rfl,
    C10_json_filter (fun s => s) "c10secret" 0 0 0 "ts" "uid" "mykey.txt" 1 "days"
      kdC10 "mykey.txt" [] [] (by rfl) (by decide) rfl⟩

end GenerateKey
